import Mathlib

/-!
Verification of the Store-Platform provisioning orchestrator
(orchestrator/app: main.py, provisioner.py, helm.py, status.py, config.py,
schemas.py, adapters/factory.py, adapters/woocommerce.py, adapters/medusa.py).

The Python code is shallowly embedded: every external effect (subprocess
calls to helm and kubectl, the temporary-file write, base64 decoding) is
an input supplied by a DriverEnv oracle, and the driver is a pure function
from that oracle to a trace recording the callbacks posted to the backend,
the number of prober/configure/helm invocations, the number of poll-interval
sleeps, and whether an uncaught Python exception escaped the background task.
-/

namespace StorePlatform

/-- leadsList pat s is true when pat is an initial segment of s. -/
def leadsList : List Char → List Char → Bool
  | [], _ => true
  | _ :: _, [] => false
  | a :: pat, b :: s => a == b && leadsList pat s

/-- occursIn pat s is true when pat occurs contiguously inside s. -/
def occursIn (pat : List Char) : List Char → Bool
  | [] => leadsList pat []
  | c :: rest => leadsList pat (c :: rest) || occursIn pat rest

/-- Python substring test: strContains s pat models the expression pat in s. -/
def strContains (s pat : String) : Bool :=
  occursIn pat.toList s.toList

/-- Whitespace for the purposes of Python str.strip(). -/
def isSpaceChar (c : Char) : Bool :=
  c == ' ' || c == '\n' || c == '\t' || c == '\r'

/-- Python str.strip(): drop leading and trailing whitespace. -/
def stripString (s : String) : String :=
  ⟨((s.toList.dropWhile isSpaceChar).reverse.dropWhile isSpaceChar).reverse⟩

/-- Request body of POST /orchestrate (schemas.py, OrchestrateRequest).
The engine field is a string here; the pydantic Literal constraint is the
predicate validEngine below. The cluster namespace field is called ns
because namespace is a Lean keyword. -/
structure OrchestrateRequest where
  store_id : String
  name : String
  engine : String
  ns : String
  host : String
  base_url : String
  store_url : String
  creator_id : Option String := none
deriving DecidableEq, Repr

/-- The pydantic Literal constraint on OrchestrateRequest.engine (schemas.py):
request-body validation accepts exactly these two engine identifiers. -/
def validEngine (engine : String) : Bool :=
  engine == "woocommerce" || engine == "medusa"

/-- Status callback body (schemas.py, StatusPayload); dict(exclude_none=True)
is modelled by the Option fields. -/
structure StatusPayload where
  status : String
  url : Option String := none
  error : Option String := none
  password : Option String := none
deriving DecidableEq, Repr

/-- A payload is terminal when its status is READY or FAILED. -/
def isTerminal (p : StatusPayload) : Bool :=
  p.status == "READY" || p.status == "FAILED"

/-- Orchestrator settings (config.py, Settings dataclass). -/
structure Settings where
  backend_api_base : String
  orchestrator_token : String
  orch_poll_attempts : Nat
  orch_poll_interval : Nat
  orch_mock : Bool
  app_env : String
  store_values_file : String
deriving DecidableEq, Repr

/-- Default for ORCH_POLL_ATTEMPTS in load_settings (config.py line 83). -/
def default_orch_poll_attempts : Nat := 30

/-- Default for ORCH_POLL_INTERVAL in load_settings (config.py line 84). -/
def default_orch_poll_interval : Nat := 10

/-- The two concrete adapter classes (adapters/factory.py). -/
inductive StoreAdapter where
  | woocommerce
  | medusa
deriving DecidableEq, Repr

/-- get_store_adapter (adapters/factory.py): dictionary lookup over the
closed set of engines; an unmapped engine raises
ValueError(f"Unsupported store engine: ..."), modelled as Except.error
carrying the exception message. -/
def get_store_adapter (engine : String) : Except String StoreAdapter :=
  if engine == "woocommerce" then .ok .woocommerce
  else if engine == "medusa" then .ok .medusa
  else .error ("Unsupported store engine: " ++ engine)

/-- Result of one subprocess.run of helm (helm.py). -/
structure HelmResult where
  returncode : Int
  stdout : String
  stderr : String
deriving DecidableEq, Repr

/-- run_helm (helm.py): raises RuntimeError(result.stderr) on a nonzero
exit code, otherwise returns stdout. -/
def run_helm (result : HelmResult) : Except String String :=
  if result.returncode != 0 then .error result.stderr else .ok result.stdout

/-- Outcomes of the external calls made by
WooCommerceAdapter.configure_platform on one invocation
(adapters/woocommerce.py lines 52-64). The private helpers each swallow
their own subprocess errors and return None / False, so the adapter itself
never raises: it is fully described by these five results. -/
structure WooConfigureEnv where
  pod_name : Option String
  wp_core_installed : Bool
  install_woocommerce_ok : Bool
  create_test_product_ok : Bool
  enable_cod_ok : Bool
deriving DecidableEq, Repr

/-- WooCommerceAdapter.configure_platform (adapters/woocommerce.py):
returns (success, error message or None) following the source order of
checks. -/
def wooConfigurePlatform (e : WooConfigureEnv) : Bool × Option String :=
  match e.pod_name with
  | none => (false, some "WordPress pod not found")
  | some _ =>
    if !e.wp_core_installed then (false, some "WordPress core not installed")
    else if !e.install_woocommerce_ok then (false, some "Failed to install/activate WooCommerce")
    else if !e.create_test_product_ok then (false, some "Failed to create test product")
    else if !e.enable_cod_ok then (false, some "Failed to enable COD payment")
    else (true, none)

/-- WooCommerceAdapter.get_admin_password (adapters/woocommerce.py lines
66-84): the kubectl secret fetch and the base64 decode both run inside a
try whose except clause catches Exception and returns None; an empty
(stripped) secret value also yields None. -/
def wooGetAdminPassword (secretFetch : Except String String)
    (b64decode : String → Except String String) : Option String :=
  match secretFetch with
  | .error _ => none
  | .ok out =>
    let encoded := stripString out
    if encoded == "" then none
    else
      match b64decode encoded with
      | .error _ => none
      | .ok pw => some pw

/-- Per-line check inside namespace_ready (status.py lines 37-41): a line
containing the sentinel substring woo-ready is skipped; any other line must
contain both Running and the literal fragment 1/1. -/
def readyLine (line : String) : Bool :=
  strContains line "woo-ready" || (strContains line "Running" && strContains line "1/1")

/-- The loop body of namespace_ready (status.py lines 37-42), recursing over
out.splitlines(): an early return False on the first bad line, True after
the last line. -/
def namespaceReadyLoop : List String → Bool
  | [] => true
  | line :: rest =>
    if strContains line "woo-ready" then namespaceReadyLoop rest
    else if !(strContains line "Running") || !(strContains line "1/1") then false
    else namespaceReadyLoop rest

/-- namespace_ready (status.py lines 26-42) applied to the pod lines already
split from the kubectl output. The kubectl invocation itself can raise; that
is modelled at the call site in the driver (DriverEnv.podLines). -/
def namespace_ready (lines : List String) : Bool :=
  namespaceReadyLoop lines

/-- Oracle for every external effect one run of _run_orchestration can
perform. podLines i is the result of the kubectl get pods call on poll
attempt i (Except.error models subprocess.CalledProcessError raised by
check_output); wooConfigure i and secretFetch i are the external outcomes
seen by the adapter on attempt i. -/
structure DriverEnv where
  writeValues : Except String String
  helm : HelmResult
  podLines : Nat → Except String (List String)
  wooConfigure : Nat → WooConfigureEnv
  secretFetch : Nat → Except String String
  b64decode : String → Except String String

/-- adapter.get_default_values: the WooCommerce adapter returns a values
dict determined by (store_name, host); the Medusa placeholder raises
NotImplementedError (adapters/medusa.py line 15). The dict content is not
inspected by the driver, so it is modelled by its parameters. -/
def get_default_values (a : StoreAdapter) (store_name host : String) :
    Except String (String × String) :=
  match a with
  | .woocommerce => .ok (store_name, host)
  | .medusa => .error "Medusa adapter not yet implemented"

/-- generate_values (provisioner.py lines 32-39): adapter lookup, default
values from the adapter, then a NamedTemporaryFile write of the YAML dump.
Any of the three can raise; the write outcome comes from the oracle. -/
def generate_values (store_name host engine : String)
    (writeValues : Except String String) : Except String String :=
  match get_store_adapter engine with
  | .error e => .error e
  | .ok a =>
    match get_default_values a store_name host with
    | .error e => .error e
    | .ok _ => writeValues

/-- install_store (provisioner.py lines 42-57): one helm upgrade --install
invocation through run_helm. -/
def install_store (helm : HelmResult) : Except String String :=
  run_helm helm

/-- configure_platform (provisioner.py lines 72-79): adapter lookup then
adapter.configure_platform; the Medusa adapter raises NotImplementedError. -/
def configure_platform (engine : String) (env : DriverEnv) (i : Nat) :
    Except String (Bool × Option String) :=
  match get_store_adapter engine with
  | .error e => .error e
  | .ok .woocommerce => .ok (wooConfigurePlatform (env.wooConfigure i))
  | .ok .medusa => .error "Medusa adapter not yet implemented"

/-- get_store_password (status.py lines 11-18): adapter lookup then
adapter.get_admin_password; the Medusa adapter raises NotImplementedError,
the WooCommerce adapter never raises. -/
def get_store_password (engine : String) (env : DriverEnv) (i : Nat) :
    Except String (Option String) :=
  match get_store_adapter engine with
  | .error e => .error e
  | .ok .woocommerce => .ok (wooGetAdminPassword (env.secretFetch i) env.b64decode)
  | .ok .medusa => .error "Medusa adapter not yet implemented"

/-- The Python condition
cfg_error and "not installed" not in cfg_error
(main.py line 106): None and the empty string are falsy, so only a
non-empty diagnostic that does not contain the substring not installed
triggers the immediate FAILED transition. -/
def hardFailure : Option String → Bool
  | none => false
  | some s => (s != "") && !(strContains s "not installed")

/-- Observable trace of one _run_orchestration execution: callbacks posted
to the backend (in order), counts of prober / adapter-configure / helm
invocations, number of asyncio.sleep(POLL_INTERVAL) waits, and the message
of an uncaught exception if one escaped the background task. -/
structure RunTrace where
  callbacks : List StatusPayload
  proberCalls : Nat
  configureCalls : Nat
  helmCalls : Nat
  sleeps : Nat
  raised : Option String
deriving DecidableEq, Repr

/-- Accounting for one consumed poll attempt that fell through to
asyncio.sleep: one prober call, cfg adapter-configure calls (0 when the
namespace was not ready, 1 when it was ready but configuration did not
terminate the loop), and one sleep, prepended to the rest of the run. -/
def RunTrace.afterAttempt (t : RunTrace) (cfg : Nat) : RunTrace :=
  { t with
    proberCalls := t.proberCalls + 1
    configureCalls := t.configureCalls + cfg
    sleeps := t.sleeps + 1 }

/-- What the poll loop of _run_orchestration observes from its three
external calls on each attempt i: the kubectl pod listing inside
namespace_ready, the value of configure_platform (or the exception it
raises), and the value of get_store_password. run_orchestration
instantiates this with the concrete adapter dispatch (driverLoopEnv). -/
structure LoopEnv where
  podLines : Nat → Except String (List String)
  configure : Nat → Except String (Bool × Option String)
  password : Nat → Except String (Option String)

/-- The poll loop of _run_orchestration (main.py lines 95-113), by recursion
on the remaining attempts, i being the index of the current attempt. The
base case is the loop falling through to the timed-out FAILED callback
(main.py line 112). A raise from namespace_ready, configure_platform or
get_store_password propagates out of the driver uncaught: the trace ends
with raised set and no further callback. -/
def pollLoop (req : OrchestrateRequest) (L : LoopEnv) : Nat → Nat → RunTrace
  | 0, _ =>
    { callbacks := [{ status := "FAILED", error := some "Platform configuration timed out" }]
      proberCalls := 0, configureCalls := 0, helmCalls := 0, sleeps := 0, raised := none }
  | n + 1, i =>
    match L.podLines i with
    | .error e =>
      { callbacks := [], proberCalls := 1, configureCalls := 0, helmCalls := 0
        sleeps := 0, raised := some e }
    | .ok lines =>
      if namespace_ready lines then
        match L.configure i with
        | .error e =>
          { callbacks := [], proberCalls := 1, configureCalls := 1, helmCalls := 0
            sleeps := 0, raised := some e }
        | .ok (success, cfg_error) =>
          if success then
            match L.password i with
            | .error e =>
              { callbacks := [], proberCalls := 1, configureCalls := 1, helmCalls := 0
                sleeps := 0, raised := some e }
            | .ok password =>
              { callbacks := [{ status := "READY", url := some req.store_url, password := password }]
                proberCalls := 1, configureCalls := 1, helmCalls := 0, sleeps := 0, raised := none }
          else if hardFailure cfg_error then
            { callbacks := [{ status := "FAILED", error := cfg_error }]
              proberCalls := 1, configureCalls := 1, helmCalls := 0, sleeps := 0, raised := none }
          else
            (pollLoop req L n (i + 1)).afterAttempt 1
      else
        (pollLoop req L n (i + 1)).afterAttempt 0

/-- The concrete loop environment used by _run_orchestration: probe via
kubectl, then the engine-dispatched configure_platform and
get_store_password from provisioner.py / status.py. -/
def driverLoopEnv (req : OrchestrateRequest) (env : DriverEnv) : LoopEnv :=
  { podLines := env.podLines
    configure := fun i => configure_platform req.engine env i
    password := fun i => get_store_password req.engine env i }

/-- _run_orchestration (main.py lines 76-113). Mock mode posts READY with
the placeholder credential and returns. generate_values runs outside the
try block, so a raise there escapes with no callback; install_store runs
inside it, and its failure posts FAILED with str(e), the raw helm stderr.
Callback posting itself is modelled as recording the payload (callback
delivery failures only truncate the run after the payload was already
posted, which no claim here depends on). -/
def run_orchestration (s : Settings) (env : DriverEnv) (req : OrchestrateRequest) : RunTrace :=
  if s.orch_mock then
    { callbacks := [{ status := "READY", url := some req.store_url, password := some "mock-password" }]
      proberCalls := 0, configureCalls := 0, helmCalls := 0, sleeps := 0, raised := none }
  else
    match generate_values req.name req.host req.engine env.writeValues with
    | .error e =>
      { callbacks := [], proberCalls := 0, configureCalls := 0, helmCalls := 0
        sleeps := 0, raised := some e }
    | .ok _ =>
      match install_store env.helm with
      | .error e =>
        { callbacks := [{ status := "FAILED", error := some e }]
          proberCalls := 0, configureCalls := 0, helmCalls := 1, sleeps := 0, raised := none }
      | .ok _ =>
        let t := pollLoop req (driverLoopEnv req env) s.orch_poll_attempts 0
        { t with helmCalls := t.helmCalls + 1 }

/-- _token_ok (main.py lines 53-54): Python equality of the incoming header
value (None when the header is absent or empty) against the configured
ORCHESTRATOR_TOKEN; None never equals a string. -/
def token_ok (configured : String) (incoming : Option String) : Bool :=
  incoming == some configured

/-- Acknowledgment body returned by POST /orchestrate on acceptance
(main.py line 135). -/
structure Ack where
  ok : Bool
  accepted : Bool
  store_id : String
deriving DecidableEq, Repr

/-- Result of one POST /orchestrate request: the HTTP response (error side
carries the status code, 422 for body validation and 401 for a bad token)
and the background tasks scheduled by the handler. -/
structure IntakeResult where
  response : Except Nat Ack
  scheduled : List OrchestrateRequest
deriving Repr

/-- The orchestrate endpoint (main.py lines 116-135). FastAPI validates the
body against OrchestrateRequest before the handler runs, so an engine
outside the Literal set is rejected with 422 and nothing executes; then the
handler raises 401 on a token mismatch, and otherwise schedules
_run_orchestration as a background task and returns the acknowledgment
immediately. The response is computed without consulting any DriverEnv:
the handler never waits on provisioning. -/
def orchestrate (s : Settings) (incoming : Option String) (req : OrchestrateRequest) :
    IntakeResult :=
  if !(validEngine req.engine) then { response := .error 422, scheduled := [] }
  else if !(token_ok s.orchestrator_token incoming) then { response := .error 401, scheduled := [] }
  else { response := .ok { ok := true, accepted := true, store_id := req.store_id }, scheduled := [req] }

/-- Callbacks produced by running every background task an intake result
scheduled. -/
def scheduledCallbacks (s : Settings) (env : DriverEnv) (r : IntakeResult) :
    List StatusPayload :=
  (r.scheduled.map (fun q => (run_orchestration s env q).callbacks)).flatten

/-- Helm invocations produced by running every background task an intake
result scheduled. -/
def scheduledHelmCalls (s : Settings) (env : DriverEnv) (r : IntakeResult) : Nat :=
  (r.scheduled.map (fun q => (run_orchestration s env q).helmCalls)).sum

/-! Concrete fixtures used by witnesses and counterexamples. -/

/-- A representative orchestration request for a WooCommerce store. -/
def sampleReq : OrchestrateRequest :=
  { store_id := "store-1", name := "shop1", engine := "woocommerce", ns := "shop1"
    host := "shop1.example.com", base_url := "https://shop1.example.com"
    store_url := "https://shop1.example.com/shop/" }

/-- Representative non-mock settings with a small poll budget. -/
def sampleSettings : Settings :=
  { backend_api_base := "http://backend:8000/api", orchestrator_token := "secret-token"
    orch_poll_attempts := 3, orch_poll_interval := default_orch_poll_interval
    orch_mock := false, app_env := "development", store_values_file := "" }

/-- A successful helm invocation. -/
def okHelm : HelmResult := { returncode := 0, stdout := "Release shop1 has been upgraded", stderr := "" }

/-- A failed helm invocation with its stderr text. -/
def badHelm : HelmResult := { returncode := 1, stdout := "", stderr := "Error: chart not found" }

/-- Configure-step externals that make every WooCommerce step succeed. -/
def goodWooEnv : WooConfigureEnv :=
  { pod_name := some "shop1-wordpress-0", wp_core_installed := true
    install_woocommerce_ok := true, create_test_product_ok := true, enable_cod_ok := true }

/-- A pod listing of one fully ready single-container WordPress pod. -/
def readyLines : List String := ["shop1-wordpress-0   1/1   Running   0   5m"]

/-- A pod listing of one pending pod, never ready. -/
def pendingLines : List String := ["shop1-wordpress-0   0/1   Pending   0   1m"]

/-- Baseline driver environment: everything succeeds on every attempt. -/
def baseEnv : DriverEnv :=
  { writeValues := .ok "/tmp/values123.yaml"
    helm := okHelm
    podLines := fun _ => .ok readyLines
    wooConfigure := fun _ => goodWooEnv
    secretFetch := fun _ => .ok "cGFzc3dvcmQ="
    b64decode := fun _ => .ok "password" }

example : namespace_ready readyLines = true := by decide
example : namespace_ready pendingLines = false := by decide
example : run_orchestration sampleSettings baseEnv sampleReq =
    { callbacks := [{ status := "READY", url := some "https://shop1.example.com/shop/", password := some "password" }]
      proberCalls := 1, configureCalls := 1, helmCalls := 1, sleeps := 0, raised := none } := by decide

/-- Environment whose values-file write raises OSError("disk full"). -/
def envWriteFail : DriverEnv := { baseEnv with writeValues := .error "disk full" }

/-- Environment whose helm install exits nonzero. -/
def envBadHelm : DriverEnv := { baseEnv with helm := badHelm }

/-- Environment whose kubectl pod listing raises on every attempt. -/
def envProbeFail : DriverEnv :=
  { baseEnv with podLines := fun _ => .error "kubectl: connection to the server was refused" }

/-- Environment whose namespace never becomes ready. -/
def envNeverReady : DriverEnv := { baseEnv with podLines := fun _ => .ok pendingLines }

/-! General lemmas about the poll loop. -/

/-- Every branch of the poll loop posts at most one callback. -/
theorem pollLoop_callbacks_length (req : OrchestrateRequest) (L : LoopEnv) :
    ∀ n i, (pollLoop req L n i).callbacks.length ≤ 1 := by
  intro n
  induction n with
  | zero => intro i; simp [pollLoop]
  | succ n ih =>
    intro i
    unfold pollLoop
    repeat' split
    all_goals first | exact ih (i + 1) | simp

/-- Every execution of the driver posts at most one callback. -/
theorem run_callbacks_length (s : Settings) (env : DriverEnv) (req : OrchestrateRequest) :
    (run_orchestration s env req).callbacks.length ≤ 1 := by
  unfold run_orchestration
  repeat' split
  all_goals
    first
      | exact pollLoop_callbacks_length req (driverLoopEnv req env) s.orch_poll_attempts 0
      | simp

/-- C1: for every settings, external environment and job, at most one
terminal status payload (READY or FAILED) is posted to the backend by one
execution of the provisioning driver. -/
theorem run_orchestration_at_most_one_terminal_callback
    (s : Settings) (env : DriverEnv) (req : OrchestrateRequest) :
    (run_orchestration s env req).callbacks.countP (fun p => isTerminal p) ≤ 1 :=
  le_trans (List.countP_le_length _) (run_callbacks_length s env req)

/-- C2 counterexample: a configuration-write failure during entry into
DEPLOYING does not produce any FAILED callback; generate_values runs
outside the try block of _run_orchestration, so the exception escapes the
background task and zero terminal payloads are sent, contradicting the
claimed exactly-one FAILED callback. -/
theorem values_write_failure_posts_no_callback :
    (run_orchestration sampleSettings envWriteFail sampleReq).callbacks = [] ∧
    (run_orchestration sampleSettings envWriteFail sampleReq).raised = some "disk full" := by
  refine ⟨?_, ?_⟩ <;> decide

/-- C2 (amended): for non-mock jobs, a nonzero deployment-tool exit while
entering DEPLOYING immediately yields exactly one terminal FAILED callback
carrying the raw helm stderr, with no retry and no prober invocation; but
an unknown adapter or a configuration/values failure (the values write, or
the unimplemented Medusa values generation) instead raises out of the
driver before the try block, terminating the job with an uncaught
exception and no callback at all. -/
theorem deploying_failure_behaviour (s : Settings) (env : DriverEnv) (req : OrchestrateRequest)
    (hmock : s.orch_mock = false) :
    (∀ vf, req.engine = "woocommerce" → env.writeValues = .ok vf → env.helm.returncode ≠ 0 →
      run_orchestration s env req =
        { callbacks := [{ status := "FAILED", error := some env.helm.stderr }]
          proberCalls := 0, configureCalls := 0, helmCalls := 1, sleeps := 0, raised := none }) ∧
    (∀ e, req.engine = "woocommerce" → env.writeValues = .error e →
      run_orchestration s env req =
        { callbacks := [], proberCalls := 0, configureCalls := 0, helmCalls := 0, sleeps := 0
          raised := some e }) ∧
    (req.engine = "medusa" →
      run_orchestration s env req =
        { callbacks := [], proberCalls := 0, configureCalls := 0, helmCalls := 0, sleeps := 0
          raised := some "Medusa adapter not yet implemented" }) ∧
    (validEngine req.engine = false →
      run_orchestration s env req =
        { callbacks := [], proberCalls := 0, configureCalls := 0, helmCalls := 0, sleeps := 0
          raised := some ("Unsupported store engine: " ++ req.engine) }) := by
  refine ⟨?_, ?_, ?_, ?_⟩
  · intro vf heng hvf hrc
    have hrc2 : (env.helm.returncode != 0) = true := by simpa [bne_iff_ne] using hrc
    simp [run_orchestration, hmock, generate_values, get_store_adapter, heng, hvf,
      get_default_values, install_store, run_helm, hrc2]
  · intro e heng hvf
    simp [run_orchestration, hmock, generate_values, get_store_adapter, heng, hvf,
      get_default_values]
  · intro heng
    simp [run_orchestration, hmock, generate_values, get_store_adapter, heng,
      get_default_values]
  · intro hbad
    simp only [validEngine, Bool.or_eq_false_iff, beq_eq_false_iff_ne, ne_eq] at hbad
    obtain ⟨h1, h2⟩ := hbad
    simp [run_orchestration, hmock, generate_values, get_store_adapter, h1, h2]

/-- Witness for the amended C2: the helm failure case at a concrete input. -/
theorem deploying_failure_behaviour_witness :
    run_orchestration sampleSettings envBadHelm sampleReq =
      { callbacks := [{ status := "FAILED", error := some "Error: chart not found" }]
        proberCalls := 0, configureCalls := 0, helmCalls := 1, sleeps := 0, raised := none } :=
  (deploying_failure_behaviour sampleSettings envBadHelm sampleReq rfl).1
    "/tmp/values123.yaml" rfl rfl (by decide)

/-- C3 counterexample: with settings allowing 3 poll attempts, a kubectl
error inside the readiness prober on the first attempt does not consume the
attempt and continue (no sleep happens, no further prober call is made): it
propagates out of the driver uncaught, terminating the job with zero
terminal callbacks. -/
theorem prober_error_crashes_without_callback :
    (run_orchestration sampleSettings envProbeFail sampleReq).callbacks = [] ∧
    (run_orchestration sampleSettings envProbeFail sampleReq).proberCalls = 1 ∧
    (run_orchestration sampleSettings envProbeFail sampleReq).sleeps = 0 ∧
    (run_orchestration sampleSettings envProbeFail sampleReq).raised =
      some "kubectl: connection to the server was refused" := by
  refine ⟨?_, ?_, ?_, ?_⟩ <;> decide

/-- C3 (amended): an error raised by the cluster query of the readiness
prober propagates out of the driver uncaught, ending the execution at once
with no terminal callback, no sleep, and no further poll attempt; errors
during the credential fetch in the READY path really are swallowed by the
WooCommerce adapter and yield a READY callback with a missing credential. -/
theorem prober_error_and_credential_swallowing (s : Settings) (env : DriverEnv)
    (req : OrchestrateRequest) (hmock : s.orch_mock = false)
    (heng : req.engine = "woocommerce") :
    (∀ e vf m, env.writeValues = .ok vf → env.helm.returncode = 0 →
      s.orch_poll_attempts = m + 1 → env.podLines 0 = .error e →
      run_orchestration s env req =
        { callbacks := [], proberCalls := 1, configureCalls := 0, helmCalls := 1
          sleeps := 0, raised := some e }) ∧
    (∀ e d, wooGetAdminPassword (.error e) d = none) ∧
    (∀ e vf m lines, env.writeValues = .ok vf → env.helm.returncode = 0 →
      s.orch_poll_attempts = m + 1 → env.podLines 0 = .ok lines →
      namespace_ready lines = true →
      wooConfigurePlatform (env.wooConfigure 0) = (true, none) →
      env.secretFetch 0 = .error e →
      run_orchestration s env req =
        { callbacks := [{ status := "READY", url := some req.store_url, password := none }]
          proberCalls := 1, configureCalls := 1, helmCalls := 1, sleeps := 0, raised := none }) := by
  refine ⟨?_, ?_, ?_⟩
  · intro e vf m hvf hrc hm hpods
    have hrc2 : (env.helm.returncode != 0) = false := by simp [hrc]
    simp [run_orchestration, hmock, generate_values, get_store_adapter, heng, hvf,
      get_default_values, install_store, run_helm, hrc2, hm, pollLoop, driverLoopEnv, hpods]
  · intro e d
    rfl
  · intro e vf m lines hvf hrc hm hpods hready hcfg hfetch
    have hrc2 : (env.helm.returncode != 0) = false := by simp [hrc]
    simp [run_orchestration, hmock, generate_values, get_store_adapter, heng, hvf,
      get_default_values, install_store, run_helm, hrc2, hm, pollLoop, driverLoopEnv, hpods,
      hready, configure_platform, hcfg, get_store_password, wooGetAdminPassword, hfetch]

/-- Witness for the amended C3: prober failure on attempt 1 of 3 at a
concrete input ends the run with no callback. -/
theorem prober_error_and_credential_swallowing_witness :
    run_orchestration sampleSettings envProbeFail sampleReq =
      { callbacks := [], proberCalls := 1, configureCalls := 0, helmCalls := 1
        sleeps := 0, raised := some "kubectl: connection to the server was refused" } :=
  (prober_error_and_credential_swallowing sampleSettings envProbeFail sampleReq rfl rfl).1
    "kubectl: connection to the server was refused" "/tmp/values123.yaml" 2 rfl rfl rfl rfl

/-- Loop environment whose configure step always fails with the recognized
not-ready-yet diagnostic. -/
def transientLoopEnv : LoopEnv :=
  { podLines := fun _ => .ok readyLines
    configure := fun _ => .ok (false, some "WordPress core not installed")
    password := fun _ => .ok (some "password") }

/-- Loop environment whose configure step always fails hard. -/
def hardFailLoopEnv : LoopEnv :=
  { podLines := fun _ => .ok readyLines
    configure := fun _ => .ok (false, some "Failed to create test product")
    password := fun _ => .ok (some "password") }

/-- C4: on a poll attempt whose namespace is ready but whose configure step
fails with a diagnostic, the driver continues polling with the remaining
attempts when the diagnostic contains the recognized not-installed marker
(the attempt is consumed, the rest of the budget stays available), and
otherwise posts the FAILED callback with that diagnostic at once, after
exactly one prober call and one configure call, consuming none of the
remaining attempts. -/
theorem configure_failure_classification (req : OrchestrateRequest) (L : LoopEnv)
    (n i : Nat) (lines : List String) (e : String)
    (hpods : L.podLines i = .ok lines)
    (hready : namespace_ready lines = true)
    (hcfg : L.configure i = .ok (false, some e)) :
    (strContains e "not installed" = true →
      pollLoop req L (n + 1) i = (pollLoop req L n (i + 1)).afterAttempt 1) ∧
    (e ≠ "" → strContains e "not installed" = false →
      pollLoop req L (n + 1) i =
        { callbacks := [{ status := "FAILED", error := some e }]
          proberCalls := 1, configureCalls := 1, helmCalls := 0, sleeps := 0
          raised := none }) := by
  refine ⟨?_, ?_⟩
  · intro hnot
    simp [pollLoop, hpods, hready, hcfg, hardFailure, hnot]
  · intro hne hnot
    have hne2 : (e != "") = true := by simpa [bne_iff_ne] using hne
    simp [pollLoop, hpods, hready, hcfg, hardFailure, hnot, hne2]

/-- Witness for C4: both classification outcomes at concrete inputs. -/
theorem configure_failure_classification_witness :
    pollLoop sampleReq transientLoopEnv 3 0 =
      (pollLoop sampleReq transientLoopEnv 2 1).afterAttempt 1 ∧
    pollLoop sampleReq hardFailLoopEnv 3 0 =
      { callbacks := [{ status := "FAILED", error := some "Failed to create test product" }]
        proberCalls := 1, configureCalls := 1, helmCalls := 0, sleeps := 0, raised := none } :=
  ⟨(configure_failure_classification sampleReq transientLoopEnv 2 0 readyLines
      "WordPress core not installed" rfl (by decide) rfl).1 (by decide),
   (configure_failure_classification sampleReq hardFailLoopEnv 2 0 readyLines
      "Failed to create test product" rfl (by decide) rfl).2 (by decide) (by decide)⟩

/-- C5 counterexample: the timeout diagnostic the code posts is the string
Platform configuration timed out with a capital P (main.py line 112), not
the all-lowercase string the claim fixes. -/
theorem timeout_diagnostic_is_capitalized :
    (run_orchestration sampleSettings envNeverReady sampleReq).callbacks =
      [{ status := "FAILED", error := some "Platform configuration timed out" }] ∧
    ¬ (run_orchestration sampleSettings envNeverReady sampleReq).callbacks =
      [{ status := "FAILED", error := some "platform configuration timed out" }] := by
  refine ⟨?_, ?_⟩ <;> decide

/-- On an environment that is never ready, the poll loop consumes exactly
its attempt budget, sleeping once per attempt, and ends with the timed-out
FAILED callback. -/
theorem pollLoop_never_ready (req : OrchestrateRequest) (L : LoopEnv)
    (h : ∀ j, ∃ lines, L.podLines j = .ok lines ∧ namespace_ready lines = false) :
    ∀ n i, pollLoop req L n i =
      { callbacks := [{ status := "FAILED", error := some "Platform configuration timed out" }]
        proberCalls := n, configureCalls := 0, helmCalls := 0, sleeps := n, raised := none } := by
  intro n
  induction n with
  | zero => intro i; rfl
  | succ n ih =>
    intro i
    obtain ⟨lines, hpods, hnr⟩ := h i
    simp [pollLoop, hpods, hnr, RunTrace.afterAttempt, ih (i + 1)]

/-- C5 (amended): a non-mock job whose namespace never becomes ready makes
exactly N prober invocations (N the configured attempt count) with one
poll-interval sleep after each, so at least N times the interval elapses,
and then posts one FAILED callback whose diagnostic is the fixed string
Platform configuration timed out. -/
theorem poll_budget_exhaustion (s : Settings) (env : DriverEnv) (req : OrchestrateRequest)
    (hmock : s.orch_mock = false) (heng : req.engine = "woocommerce")
    (hw : ∃ vf, env.writeValues = .ok vf) (hrc : env.helm.returncode = 0)
    (h : ∀ j, ∃ lines, env.podLines j = .ok lines ∧ namespace_ready lines = false) :
    run_orchestration s env req =
      { callbacks := [{ status := "FAILED", error := some "Platform configuration timed out" }]
        proberCalls := s.orch_poll_attempts, configureCalls := 0, helmCalls := 1
        sleeps := s.orch_poll_attempts, raised := none } := by
  obtain ⟨vf, hvf⟩ := hw
  have hrc2 : (env.helm.returncode != 0) = false := by simp [hrc]
  have hloop := pollLoop_never_ready req (driverLoopEnv req env) h s.orch_poll_attempts 0
  simp [run_orchestration, hmock, generate_values, get_store_adapter, heng, hvf,
    get_default_values, install_store, run_helm, hrc2, hloop]

/-- Witness for the amended C5: attempts=3 on a never-ready namespace gives
3 prober calls, 3 sleeps, and the capitalized timeout diagnostic. -/
theorem poll_budget_exhaustion_witness :
    run_orchestration sampleSettings envNeverReady sampleReq =
      { callbacks := [{ status := "FAILED", error := some "Platform configuration timed out" }]
        proberCalls := 3, configureCalls := 0, helmCalls := 1, sleeps := 3, raised := none } :=
  poll_budget_exhaustion sampleSettings envNeverReady sampleReq rfl rfl
    ⟨"/tmp/values123.yaml", rfl⟩ rfl
    (fun _ => ⟨pendingLines, rfl, by decide⟩)

/-- A request for an engine outside the supported set. -/
def badEngineReq : OrchestrateRequest := { sampleReq with store_id := "store-2", engine := "shopify" }

/-- C6: a job-submission request whose token does not equal the configured
shared secret gets the 401 response and schedules nothing, so running the
scheduled work performs no helm install and posts no callback; a matching
token yields the acknowledgment with accepted = true and the request store
id, and only schedules the driver to run later (the response itself is
computed without consulting the provisioning environment). -/
theorem intake_token_gate (s : Settings) (env : DriverEnv) (incoming : Option String)
    (req : OrchestrateRequest) (hvalid : validEngine req.engine = true) :
    (incoming ≠ some s.orchestrator_token →
      (orchestrate s incoming req).response = .error 401 ∧
      (orchestrate s incoming req).scheduled = [] ∧
      scheduledHelmCalls s env (orchestrate s incoming req) = 0 ∧
      scheduledCallbacks s env (orchestrate s incoming req) = []) ∧
    (incoming = some s.orchestrator_token →
      (orchestrate s incoming req).response =
        .ok { ok := true, accepted := true, store_id := req.store_id } ∧
      (orchestrate s incoming req).scheduled = [req]) := by
  refine ⟨?_, ?_⟩
  · intro hbad
    have htok : token_ok s.orchestrator_token incoming = false := by
      simp [token_ok, hbad]
    simp [orchestrate, hvalid, htok, scheduledHelmCalls, scheduledCallbacks]
  · intro hgood
    have htok : token_ok s.orchestrator_token incoming = true := by
      simp [token_ok, hgood]
    simp [orchestrate, hvalid, htok]

/-- Witness for C6: both token outcomes at concrete inputs. -/
theorem intake_token_gate_witness :
    (orchestrate sampleSettings (some "wrong-token") sampleReq).response = .error 401 ∧
    scheduledCallbacks sampleSettings baseEnv
      (orchestrate sampleSettings (some "wrong-token") sampleReq) = [] ∧
    (orchestrate sampleSettings (some "secret-token") sampleReq).response =
      .ok { ok := true, accepted := true, store_id := "store-1" } ∧
    (orchestrate sampleSettings (some "secret-token") sampleReq).scheduled = [sampleReq] :=
  ⟨((intake_token_gate sampleSettings baseEnv (some "wrong-token") sampleReq rfl).1
      (by decide)).1,
   ((intake_token_gate sampleSettings baseEnv (some "wrong-token") sampleReq rfl).1
      (by decide)).2.2.2,
   ((intake_token_gate sampleSettings baseEnv (some "secret-token") sampleReq rfl).2 rfl).1,
   ((intake_token_gate sampleSettings baseEnv (some "secret-token") sampleReq rfl).2 rfl).2⟩

/-- C7: an engine identifier outside the supported set is rejected at
job-acceptance time by request validation (422, nothing scheduled); the
adapter lookup raises for it; and a driver run on such a job raises during
values generation with zero prober invocations and no callback. -/
theorem unknown_engine_rejected_fail_fast (s : Settings) (env : DriverEnv)
    (incoming : Option String) (req : OrchestrateRequest)
    (h : validEngine req.engine = false) (hmock : s.orch_mock = false) :
    (orchestrate s incoming req).response = .error 422 ∧
    (orchestrate s incoming req).scheduled = [] ∧
    get_store_adapter req.engine = .error ("Unsupported store engine: " ++ req.engine) ∧
    (run_orchestration s env req).proberCalls = 0 ∧
    (run_orchestration s env req).callbacks = [] ∧
    (run_orchestration s env req).raised =
      some ("Unsupported store engine: " ++ req.engine) := by
  have hor := h
  simp only [validEngine, Bool.or_eq_false_iff, beq_eq_false_iff_ne, ne_eq] at hor
  obtain ⟨h1, h2⟩ := hor
  refine ⟨?_, ?_, ?_, ?_, ?_, ?_⟩ <;>
    simp [orchestrate, h, run_orchestration, hmock, generate_values, get_store_adapter, h1, h2]

/-- Witness for C7: the engine shopify at concrete inputs. -/
theorem unknown_engine_rejected_fail_fast_witness :
    (orchestrate sampleSettings (some "secret-token") badEngineReq).response = .error 422 ∧
    (run_orchestration sampleSettings baseEnv badEngineReq).proberCalls = 0 ∧
    (run_orchestration sampleSettings baseEnv badEngineReq).raised =
      some "Unsupported store engine: shopify" :=
  ⟨(unknown_engine_rejected_fail_fast sampleSettings baseEnv (some "secret-token") badEngineReq
      (by decide) rfl).1,
   (unknown_engine_rejected_fail_fast sampleSettings baseEnv (some "secret-token") badEngineReq
      (by decide) rfl).2.2.2.1,
   (unknown_engine_rejected_fail_fast sampleSettings baseEnv (some "secret-token") badEngineReq
      (by decide) rfl).2.2.2.2.2⟩

/-- Abstract pod status as the cluster reports it: pod name, number of
ready containers, number of declared containers, and phase. -/
structure PodLine where
  pod_name : String
  readyContainers : Nat
  declaredContainers : Nat
  state : String
deriving DecidableEq, Repr

/-- Render a pod status as one line of kubectl get pods --no-headers
output: NAME READY STATUS RESTARTS AGE. -/
def renderPodLine (p : PodLine) : String :=
  p.pod_name ++ "   " ++ toString p.readyContainers ++ "/" ++ toString p.declaredContainers
    ++ "   " ++ p.state ++ "   0   5m"

/-- Readiness as the claim states it, for refinement comparison with
namespace_ready: every pod whose name does not contain the sentinel
substring is Running with all of its declared containers ready, for any
declared container count. -/
def claimedNamespaceReady (pods : List PodLine) : Bool :=
  pods.all (fun p => strContains p.pod_name "woo-ready" ||
    (p.state == "Running" && p.readyContainers == p.declaredContainers))

/-- The early-return loop of namespace_ready equals the per-line
conjunction over all reported lines. -/
theorem namespaceReadyLoop_all (lines : List String) :
    namespaceReadyLoop lines = lines.all readyLine := by
  induction lines with
  | nil => rfl
  | cons l rest ih =>
    simp only [namespaceReadyLoop, List.all_cons, readyLine]
    by_cases h1 : strContains l "woo-ready"
    · simp [h1, ih]
    · by_cases h2 : strContains l "Running"
      · by_cases h3 : strContains l "1/1"
        · simp [h1, h2, h3, ih]
        · simp [h1, h2, h3]
      · simp [h1, h2]

/-- C8 counterexample: a single pod with 2 of 2 declared containers ready
and phase Running is ready under the claimed semantics, but its kubectl
line does not contain the literal fragment 1/1, so namespace_ready counts
the namespace not ready. -/
theorem multi_container_ready_pod_counted_not_ready :
    claimedNamespaceReady
      [{ pod_name := "shop1-db-0", readyContainers := 2, declaredContainers := 2
         state := "Running" }] = true ∧
    namespace_ready
      [renderPodLine
        { pod_name := "shop1-db-0", readyContainers := 2, declaredContainers := 2
          state := "Running" }] = false := by
  refine ⟨?_, ?_⟩ <;> decide

/-- C8 (amended): the prober reports the namespace ready if and only if
every pod line it reports either contains the sentinel substring woo-ready
or contains both the substring Running and the literal fragment 1/1 — that
is, only lines rendered as a fully ready single-container pod pass; a pod
with more than one declared container never satisfies the check even when
all its containers are ready. -/
theorem namespace_ready_line_characterization (lines : List String) :
    namespace_ready lines = lines.all readyLine :=
  namespaceReadyLoop_all lines

/-- Loop environment observing an empty namespace whose configure step
succeeds. -/
def emptyNsLoopEnv : LoopEnv :=
  { podLines := fun _ => .ok []
    configure := fun _ => .ok (true, none)
    password := fun _ => .ok none }

/-- C9: an empty pod listing (and likewise one containing only sentinel
lines) counts as ready, and on such an attempt the driver loop proceeds to
invoke the adapter configure step. -/
theorem empty_namespace_counts_ready (req : OrchestrateRequest) (L : LoopEnv)
    (n i : Nat) (hpods : L.podLines i = .ok []) :
    namespace_ready [] = true ∧
    (∀ lines, lines.all (fun l => strContains l "woo-ready") = true →
      namespace_ready lines = true) ∧
    (pollLoop req L (n + 1) i).configureCalls ≥ 1 := by
  refine ⟨rfl, ?_, ?_⟩
  · intro lines hall
    unfold namespace_ready
    rw [namespaceReadyLoop_all]
    simp only [List.all_eq_true] at hall ⊢
    intro l hl
    simp [readyLine, hall l hl]
  · unfold pollLoop
    rw [hpods]
    repeat' split
    all_goals simp_all [namespace_ready, namespaceReadyLoop, RunTrace.afterAttempt]

/-- Witness for C9: a zero-pod namespace at a concrete input. -/
theorem empty_namespace_counts_ready_witness :
    namespace_ready [] = true ∧
    (pollLoop sampleReq emptyNsLoopEnv 3 0).configureCalls ≥ 1 :=
  ⟨(empty_namespace_counts_ready sampleReq emptyNsLoopEnv 2 0 rfl).1,
   (empty_namespace_counts_ready sampleReq emptyNsLoopEnv 2 0 rfl).2.2⟩

/-- Loop environment whose configure step always returns failure with no
diagnostic at all. -/
def emptyDiagLoopEnv : LoopEnv :=
  { podLines := fun _ => .ok readyLines
    configure := fun _ => .ok (false, none)
    password := fun _ => .ok none }

/-- C10: a configure failure whose diagnostic is None or the empty string
never triggers the FAILED transition: the attempt is consumed and polling
continues, and when every attempt ends that way the run surfaces only the
timed-out FAILED callback once the budget is exhausted. -/
theorem empty_diagnostic_configure_failure_transient (req : OrchestrateRequest) (L : LoopEnv) :
    (∀ n i lines cfg, L.podLines i = .ok lines → namespace_ready lines = true →
      L.configure i = .ok (false, cfg) → (cfg = none ∨ cfg = some "") →
      pollLoop req L (n + 1) i = (pollLoop req L n (i + 1)).afterAttempt 1) ∧
    ((∀ j, ∃ lines, L.podLines j = .ok lines ∧ namespace_ready lines = true) →
     (∀ j, ∃ cfg, L.configure j = .ok (false, cfg) ∧ (cfg = none ∨ cfg = some "")) →
      ∀ n i, pollLoop req L n i =
        { callbacks := [{ status := "FAILED", error := some "Platform configuration timed out" }]
          proberCalls := n, configureCalls := n, helmCalls := 0, sleeps := n
          raised := none }) := by
  have step : ∀ n i lines cfg, L.podLines i = .ok lines → namespace_ready lines = true →
      L.configure i = .ok (false, cfg) → (cfg = none ∨ cfg = some "") →
      pollLoop req L (n + 1) i = (pollLoop req L n (i + 1)).afterAttempt 1 := by
    intro n i lines cfg hpods hready hcfg hempty
    rcases hempty with h | h <;>
      simp [pollLoop, hpods, hready, hcfg, hardFailure, h]
  refine ⟨step, ?_⟩
  intro hall hcfgall n
  induction n with
  | zero => intro i; rfl
  | succ n ih =>
    intro i
    obtain ⟨lines, hpods, hready⟩ := hall i
    obtain ⟨cfg, hcfg, hempty⟩ := hcfgall i
    rw [step n i lines cfg hpods hready hcfg hempty, ih (i + 1)]
    simp [RunTrace.afterAttempt]

/-- Witness for C10: both parts at a concrete input where configure always
returns failure with a missing diagnostic. -/
theorem empty_diagnostic_configure_failure_transient_witness :
    pollLoop sampleReq emptyDiagLoopEnv 3 0 =
      (pollLoop sampleReq emptyDiagLoopEnv 2 1).afterAttempt 1 ∧
    pollLoop sampleReq emptyDiagLoopEnv 3 0 =
      { callbacks := [{ status := "FAILED", error := some "Platform configuration timed out" }]
        proberCalls := 3, configureCalls := 3, helmCalls := 0, sleeps := 3, raised := none } :=
  ⟨(empty_diagnostic_configure_failure_transient sampleReq emptyDiagLoopEnv).1
      2 0 readyLines none rfl (by decide) rfl (Or.inl rfl),
   (empty_diagnostic_configure_failure_transient sampleReq emptyDiagLoopEnv).2
      (fun _ => ⟨readyLines, rfl, by decide⟩) (fun _ => ⟨none, rfl, Or.inl rfl⟩) 3 0⟩

end StorePlatform
